import Mathlib

/-!
Shallow embedding of `src/handle_digital_ingest_trigger.py` from the
digital_ingest_trigger repository, together with proofs about the routing,
configuration-fetch and task-launch logic.

Modelling conventions:

* Python JSON-like values (`dict` / `str` / `None`) are modelled by the
  inductive `JValue`; a `dict` is an association list of string keys.
* Python exceptions are modelled by the error type `PyError` and fallible
  steps run in `Except PyError`.
* `str.split(sep)` for a one-character separator is modelled by `pySplit`
  on the character list of the string.
* The boto3 SSM call in `get_config` is an external collaborator; it is
  modelled by an `Except`-valued fetch result (an exception raised by the
  call lands in the `.error` case, in which case the accumulated
  configuration is still empty, matching the `try/except/finally` shape).
* The boto3 ECS `run_task` call is an external collaborator; `run_task`
  is modelled as the pure construction of the launch request it sends,
  and the handler's "response" on a launching branch is that request.
* `lambda_handler` returns its `response` value before the final
  `json.dumps` serialization: either the launch request or the
  "Nothing to do" f-string, or an error for a raised exception.
-/

/-- A Python JSON-like value: `None`, a string, or a dict with string keys. -/
inductive JValue where
  | null : JValue
  | str : String → JValue
  | obj : List (String × JValue) → JValue

/-- Python dict lookup (first binding wins; dict keys are unique anyway). -/
def jlookup : List (String × JValue) → String → Option JValue
  | [], _ => none
  | (k, v) :: rest, key => if k = key then some v else jlookup rest key

/-- Python truthiness of the result of `dict.get(key)`: `None` and a missing
key are falsy, a string is truthy iff nonempty, a dict is truthy iff
nonempty. -/
def truthy : Option JValue → Bool
  | none => false
  | some JValue.null => false
  | some (JValue.str s) => !(s == "")
  | some (JValue.obj fs) => !fs.isEmpty

/-- Python exceptions that the handler can raise. `unrecognizedEvent` models
the `raise Exception ... Unsure how to parse message` in the final `else`. -/
inductive PyError where
  | keyError : String → PyError
  | attributeError : PyError
  | typeError : PyError
  | indexError : PyError
  | unrecognizedEvent : PyError

/-- Python `value.get(key)`: `AttributeError` when `value` is not a dict. -/
def dictGet (v : JValue) (k : String) : Except PyError (Option JValue) :=
  match v with
  | JValue.obj fs => Except.ok (jlookup fs k)
  | _ => Except.error PyError.attributeError

/-- Python subscript `value[key]`: `TypeError` when `value` is not a dict,
`KeyError` when the key is missing. -/
def subscript (v : JValue) (k : String) : Except PyError JValue :=
  match v with
  | JValue.obj fs =>
    match jlookup fs k with
    | some x => Except.ok x
    | none => Except.error (PyError.keyError k)
  | _ => Except.error PyError.typeError

/-- Python `value.split(sep)` needs `value` to be a string
(`AttributeError` otherwise). -/
def asStr (v : JValue) : Except PyError String :=
  match v with
  | JValue.str s => Except.ok s
  | _ => Except.error PyError.attributeError

/-- Prepend a character to the first piece of a split (helper for
`pySplit`). -/
def consHead (c : Char) : List (List Char) → List (List Char)
  | [] => [[c]]
  | h :: t => (c :: h) :: t

/-- Python `str.split(sep)` for a single-character separator, on the
character list of the string. `pySplit sep [] = [[]]`, matching
Python where a split always yields at least one (possibly empty) piece. -/
def pySplit (sep : Char) : List Char → List (List Char)
  | [] => [[]]
  | c :: rest =>
    if c = sep then [] :: pySplit sep rest
    else consHead c (pySplit sep rest)

mutual

/-- Python repr of a `JValue`, used to model the f-strings
interpolating the whole event into the "Nothing to do" responses. -/
def pyRepr : JValue → String
  | JValue.null => "None"
  | JValue.str s => "\x27" ++ s ++ "\x27"
  | JValue.obj fs => "\x7b" ++ String.intercalate ", " (pyReprFields fs) ++ "\x7d"

/-- Python reprs of the entries of a dict, in order. -/
def pyReprFields : List (String × JValue) → List String
  | [] => []
  | (k, v) :: rest => ("\x27" ++ k ++ "\x27: " ++ pyRepr v) :: pyReprFields rest

end

/-- A flat configuration mapping, as built by `get_config` (a Python dict
from setting name to setting value, represented as an association list
with unique keys kept in insertion order). -/
abbrev Config := List (String × String)

/-- Python dict assignment `cfg[k] = v`: overwrite in place when the key is
present, append otherwise. -/
def dinsert (cfg : Config) (k v : String) : Config :=
  if (cfg.map Prod.fst).contains k then
    cfg.map (fun p => if p.1 = k then (p.1, v) else p)
  else cfg ++ [(k, v)]

/-- Python dict lookup `cfg.get(k)` on a configuration. -/
def cfgGet : Config → String → Option String
  | [], _ => none
  | (k, v) :: rest, key => if k = key then some v else cfgGet rest key

/-- One parameter returned by the SSM `get_parameters_by_path` call:
its full `Name` and its `Value`. -/
structure Param where
  name : String
  value : String

/-- The final path segment of a parameter name, as computed by
`param.get(Name).split(/)` indexed at `len - 1` in `get_config`. -/
def lastSegment (name : String) : String :=
  String.mk ((pySplit '/' name.data).getLastD [])

/-- Embedding of `get_config` (lines 18-48). The SSM
`get_parameters_by_path` call for `ssm_parameter_path` is modelled by
`fetch`: `.ok params` when the call returns the listed parameters,
`.error msg` when it raises. On an exception the `except BaseException`
arm logs and the `finally` returns the accumulated `configuration`,
which is still the initial empty dict because the exception struck the
remote call itself, before the loop ran. -/
def get_config (ssm_parameter_path : String) (fetch : Except String (List Param)) : Config :=
  match ssm_parameter_path, fetch with
  | _, Except.error _ => []
  | _, Except.ok params =>
    params.foldl (fun configuration p => dinsert configuration (lastSegment p.name) p.value) []

/-- One entry of a container-override environment list, e.g.
`{"name": "PACKAGE_ID", "value": package_id}`; the value is `none` when the
Python value is `None`. -/
structure EnvEntry where
  name : String
  value : Option JValue

/-- A container override inside the `overrides` argument of the ECS
`run_task` call. -/
structure ContainerOverride where
  name : JValue
  environment : List EnvEntry

/-- The launch request that `run_task` (lines 51-73) passes to the ECS
client: every keyword argument of the boto3 `run_task` call. -/
structure RunTaskRequest where
  cluster : Option String
  launchType : String
  subnets : List (Option String)
  securityGroups : List String
  assignPublicIp : String
  taskDefinition : JValue
  count : Nat
  startedBy : String
  containerOverrides : List ContainerOverride

/-- Embedding of `run_task` (lines 51-73): the pure construction of the
launch request sent to the ECS client. -/
def run_task (config : Config) (task_definition : JValue)
    (environment : List EnvEntry) : RunTaskRequest :=
  ⟨cfgGet config ("ECS_CLUSTER"),
   "FARGATE",
   [cfgGet config ("ECS_SUBNET")],
   [],
   "DISABLED",
   task_definition,
   1,
   "lambda/digital_ingest_trigger",
   [⟨task_definition, environment⟩]⟩

/-- The constant `START_STATUS` (line 13). -/
def START_STATUS : String := "START"

/-- Python `x == START_STATUS` where `x` is the result of a `.get`:
only a string compares equal to a string. -/
def isStart : Option JValue → Bool
  | some (JValue.str s) => s == START_STATUS
  | _ => false

/-- Python `event_type == name` for one candidate of the
`event_type in [...]` membership test (line 93). -/
def jeqStr : JValue → String → Bool
  | JValue.str s, t => s == t
  | _, _ => false

/-- The trigger set of S3 event names (lines 93-94). -/
def triggerEventNames : List String :=
  ["ObjectCreated:Put", "ObjectCreated:CompleteMultipartUpload"]

/-- What a branch of `lambda_handler` decided, before the "Nothing to do"
f-strings interpolate the full event text. -/
inductive RouteResult where
  | launched : RunTaskRequest → RouteResult
  | noActionS3 : RouteResult
  | noActionSns : RouteResult

/-- Embedding of the S3 arm of `lambda_handler` (lines 84-107), entered when
`event.Records[0].get(s3)` is truthy: read `eventName`, and when it is in
the trigger set split the object key on the first `.` and launch
`ursa_major` with that `PACKAGE_ID`. -/
def s3Branch (config : Config) (record : JValue) : Except PyError RouteResult := do
  let event_type ← subscript record ("eventName")
  if triggerEventNames.any (fun n => jeqStr event_type n) then
    let s3 ← subscript record ("s3")
    let object ← subscript s3 ("object")
    let key ← subscript object ("key")
    let keyStr ← asStr key
    let package_id := String.mk ((pySplit '.' keyStr.data).headD [])
    let environment : List EnvEntry := [⟨"PACKAGE_ID", some (JValue.str package_id)⟩]
    pure (RouteResult.launched (run_task config (JValue.str ("ursa_major")) environment))
  else
    pure RouteResult.noActionS3

/-- Embedding of the SNS arm of `lambda_handler` (lines 109-131), entered
when `event.Records[0].get(Sns)` is truthy: read `MessageAttributes`,
compute `package_id = attributes.get(package_id, \x7b\x7d).get(Value)`
(before the status test, as in the source), and when
`attributes.get(requested_status, \x7b\x7d).get(Value) == START_STATUS`
launch the task definition named by `attributes[service][Value]`. -/
def snsBranch (config : Config) (record : JValue) : Except PyError RouteResult := do
  let sns ← subscript record ("Sns")
  let attributes ← subscript sns ("MessageAttributes")
  let pidAttr ← dictGet attributes ("package_id")
  let package_id ← dictGet (pidAttr.getD (JValue.obj [])) ("Value")
  let environment : List EnvEntry := [⟨"PACKAGE_ID", package_id⟩]
  let rsAttr ← dictGet attributes ("requested_status")
  let requested ← dictGet (rsAttr.getD (JValue.obj [])) ("Value")
  if isStart requested then
    let service ← subscript attributes ("service")
    let serviceValue ← subscript service ("Value")
    pure (RouteResult.launched (run_task config serviceValue environment))
  else
    pure RouteResult.noActionSns

/-- Embedding of the `if / elif / else` routing on the first record
(lines 84, 109, 132-133): truthiness of `record.get(s3)` first, then of
`record.get(Sns)`, else `raise Exception(Unsure how to parse message)`. -/
def routeRecord (config : Config) (record : JValue) : Except PyError RouteResult := do
  let s3 ← dictGet record ("s3")
  if truthy s3 then s3Branch config record
  else
    let sns ← dictGet record ("Sns")
    if truthy sns then snsBranch config record
    else Except.error PyError.unrecognizedEvent

/-- The inbound Lambda event: a dict whose `Records` key holds a list of
records. -/
structure Event where
  records : List JValue

/-- Python repr of the whole event dict, as interpolated by the f-strings
`f.. Nothing to do for S3 event: \x7bevent\x7d` (lines 91, 116). -/
def pyReprEvent (event : Event) : String :=
  "\x7b\x27Records\x27: [" ++ String.intercalate ", " (event.records.map pyRepr) ++ "]\x7d"

/-- The handler's possible `response` values: a launch request (the ECS
call's payload, whose API response the handler passes through) or a
"Nothing to do" message string. -/
inductive Outcome where
  | launched : RunTaskRequest → Outcome
  | noAction : String → Outcome

/-- Embedding of `lambda_handler` (lines 76-136), with the configuration
already fetched (line 79) and up to the final `json.dumps`: take
`event.Records[0]` (IndexError when there is no record), route it, and
on a no-action branch build the f-string response interpolating the whole
event. -/
def lambda_handler (config : Config) (event : Event) : Except PyError Outcome :=
  match event.records.head? with
  | none => Except.error PyError.indexError
  | some record =>
    match routeRecord config record with
    | Except.error e => Except.error e
    | Except.ok (RouteResult.launched req) => Except.ok (Outcome.launched req)
    | Except.ok RouteResult.noActionS3 =>
      Except.ok (Outcome.noAction ("Nothing to do for S3 event: " ++ pyReprEvent event))
    | Except.ok RouteResult.noActionSns =>
      Except.ok (Outcome.noAction ("Nothing to do for SNS event: " ++ pyReprEvent event))

/-- The substring of `s` strictly before its first occurrence of the
character `.` (all of `s` when it has no dot) — the spec's phrasing of the
`package_id` derivation, stated independently of `pySplit`. -/
def prefixBeforeFirstDot (s : String) : String :=
  String.mk (s.data.takeWhile (fun c => c != '.'))

/-- Substring containment: `needle` occurs contiguously somewhere in
`hay`. -/
def strContains (hay needle : String) : Bool :=
  (List.range (hay.data.length + 1)).any
    (fun i => needle.data.isPrefixOf (hay.data.drop i))

/-- View of a handler result that keeps the error and the launch request
but forgets the text of a "Nothing to do" message. -/
def launchView : Except PyError Outcome → Except PyError (Option RunTaskRequest)
  | Except.error e => Except.error e
  | Except.ok (Outcome.launched req) => Except.ok (some req)
  | Except.ok (Outcome.noAction _) => Except.ok none

/-- View of a handler result that keeps only the text of a
"Nothing to do" message. -/
def msgOf : Except PyError Outcome → Option String
  | Except.ok (Outcome.noAction m) => some m
  | _ => none

/-- A first record shaped as a non-trigger S3 storage event (used to show
that the trailing records still leak into the returned message). -/
def s3IdleRecord : JValue :=
  JValue.obj [("s3", JValue.obj [("x", JValue.null)]), ("eventName", JValue.str ("ObjectRemoved:Delete"))]

/-- A record shaped as an S3 `ObjectCreated:Put` notification for the object
key `abc123.tif`. -/
def storagePutRecord : JValue :=
  JValue.obj [("s3", JValue.obj [("object", JValue.obj [("key", JValue.str ("abc123.tif"))])]),
              ("eventName", JValue.str ("ObjectCreated:Put"))]

/-- The `MessageAttributes` dict of an SNS message requesting a start of the
`fornax` service for package `xyz`. -/
def snsStartAttributes : JValue :=
  JValue.obj
    [("package_id", JValue.obj [("Type", JValue.str ("String")), ("Value", JValue.str ("xyz"))]),
     ("requested_status", JValue.obj [("Value", JValue.str ("START"))]),
     ("service", JValue.obj [("Value", JValue.str ("fornax"))])]

/-- A record shaped as an SNS notification whose attributes request a
start. -/
def snsStartRecord : JValue :=
  JValue.obj [("Sns", JValue.obj [("MessageAttributes", snsStartAttributes)])]

/-- A record shaped as an SNS notification with no message attributes at
all (so `requested_status` is absent). -/
def snsIdleRecord : JValue :=
  JValue.obj [("Sns", JValue.obj [("MessageAttributes", JValue.obj [])])]

/-- A record carrying both a truthy `s3` entry (a trigger `ObjectCreated:Put`
event) and a `Sns` entry that would, on its own, launch `fornax`. -/
def bothShapesRecord : JValue :=
  JValue.obj [("s3", JValue.obj [("object", JValue.obj [("key", JValue.str ("abc123.tif"))])]),
              ("eventName", JValue.str ("ObjectCreated:Put")),
              ("Sns", JValue.obj [("MessageAttributes", snsStartAttributes)])]

/-- A one-record envelope around `s3IdleRecord`. -/
def idleEventShort : Event := ⟨[s3IdleRecord]⟩

/-- A two-record envelope with the same first record as `idleEventShort`
and one extra trailing record. -/
def idleEventLong : Event := ⟨[s3IdleRecord, JValue.null]⟩

/-!  Helper lemmas. -/

theorem pySplit_ne_nil (sep : Char) (l : List Char) : pySplit sep l ≠ [] := by
  cases l with
  | nil => simp [pySplit]
  | cons c rest =>
    simp only [pySplit]
    split
    · simp
    · cases pySplit sep rest <;> simp [consHead]

theorem headD_pySplit (sep : Char) (l : List Char) :
    (pySplit sep l).headD [] = l.takeWhile (fun c => c != sep) := by
  induction l with
  | nil => simp [pySplit]
  | cons c rest ih =>
    simp only [pySplit]
    by_cases hc : c = sep
    · simp [hc, List.takeWhile]
    · have hne := pySplit_ne_nil sep rest
      cases hr : pySplit sep rest with
      | nil => exact absurd hr hne
      | cons h t =>
        rw [hr] at ih
        simp only [List.headD] at ih
        have hcb : (c != sep) = true := by simp [hc]
        simp [hc, consHead, List.takeWhile, ih, hcb]

theorem package_id_eq_prefixBeforeFirstDot (s : String) :
    String.mk ((pySplit '.' s.data).headD []) = prefixBeforeFirstDot s := by
  rw [headD_pySplit, prefixBeforeFirstDot]

theorem isPrefixOf_append_right (p a b : List Char) (h : p.isPrefixOf a = true) :
    p.isPrefixOf (a ++ b) = true := by
  induction p generalizing a with
  | nil => simp [List.isPrefixOf]
  | cons c cs ih =>
    cases a with
    | nil => simp [List.isPrefixOf] at h
    | cons d ds =>
      simp only [List.isPrefixOf, List.cons_append, Bool.and_eq_true] at h ⊢
      exact ⟨h.1, ih ds h.2⟩

theorem strContains_of_isPrefixOf (a b p : String)
    (h : p.data.isPrefixOf a.data = true) : strContains (a ++ b) p = true := by
  apply List.any_eq_true.mpr
  refine ⟨0, ?_, ?_⟩
  · exact List.mem_range.mpr (Nat.succ_pos _)
  · rw [List.drop_zero, String.data_append]
    exact isPrefixOf_append_right _ _ _ h

theorem dictGet_obj (fs : List (String × JValue)) (k : String) :
    dictGet (JValue.obj fs) k = Except.ok (jlookup fs k) := rfl

theorem subscript_eq_ok (fs : List (String × JValue)) (k : String) (v : JValue)
    (h : jlookup fs k = some v) : subscript (JValue.obj fs) k = Except.ok v := by
  simp [subscript, h]

theorem mem_dinsert (cfg : Config) (k v kn vn : String)
    (h : (k, v) ∈ dinsert cfg kn vn) : (k = kn ∧ v = vn) ∨ (k, v) ∈ cfg := by
  unfold dinsert at h
  split at h
  · obtain ⟨p, hp, hpe⟩ := List.mem_map.mp h
    by_cases hk : p.1 = kn
    · rw [if_pos hk] at hpe
      left
      have h1 : p.1 = k := congrArg Prod.fst hpe
      have h2 : vn = v := congrArg Prod.snd hpe
      exact ⟨h1.symm.trans hk, h2.symm⟩
    · rw [if_neg hk] at hpe
      right
      exact hpe ▸ hp
  · rcases List.mem_append.mp h with hc | hs
    · right; exact hc
    · left
      rcases List.mem_singleton.mp hs with he
      exact ⟨congrArg Prod.fst he, congrArg Prod.snd he⟩

theorem mem_foldl_dinsert (params : List Param) (cfg : Config) (k v : String)
    (h : (k, v) ∈ params.foldl
      (fun configuration p => dinsert configuration (lastSegment p.name) p.value) cfg) :
    (k, v) ∈ cfg ∨ ∃ p ∈ params, lastSegment p.name = k ∧ p.value = v := by
  induction params generalizing cfg with
  | nil => exact Or.inl h
  | cons q qs ih =>
    rw [List.foldl_cons] at h
    rcases ih _ h with hmem | ⟨p, hp, hseg, hval⟩
    · rcases mem_dinsert _ _ _ _ _ hmem with ⟨hk, hv⟩ | hcfg
      · exact Or.inr ⟨q, List.mem_cons_self q qs, hk.symm, hv.symm⟩
      · exact Or.inl hcfg
    · exact Or.inr ⟨p, List.mem_cons_of_mem q hp, hseg, hval⟩

/-!  Claim theorems. -/

/-- C1: for every envelope whose first record is a StorageEvent with
`event_name` in the trigger set, the handler launches exactly one task with
task definition the literal `ursa_major`, and the launch environment is
exactly one entry `PACKAGE_ID` whose value is the substring of the object
key before its first `.`. -/
theorem s3_object_created_launches_ursa_major (config : Config) (event : Event)
    (fs sfs ofs : List (String × JValue)) (en key : String)
    (hhead : event.records.head? = some (JValue.obj fs))
    (hs3 : jlookup fs ("s3") = some (JValue.obj sfs))
    (hne : sfs ≠ [])
    (hen : jlookup fs ("eventName") = some (JValue.str en))
    (htrig : en ∈ triggerEventNames)
    (hobj : jlookup sfs ("object") = some (JValue.obj ofs))
    (hkey : jlookup ofs ("key") = some (JValue.str key)) :
    lambda_handler config event =
      Except.ok (Outcome.launched (run_task config (JValue.str ("ursa_major"))
        [⟨"PACKAGE_ID", some (JValue.str (prefixBeforeFirstDot key))⟩])) ∧
    (run_task config (JValue.str ("ursa_major"))
        [⟨"PACKAGE_ID", some (JValue.str (prefixBeforeFirstDot key))⟩]).count = 1 := by
  have hany : triggerEventNames.any (fun n => jeqStr (JValue.str en) n) = true :=
    List.any_eq_true.mpr ⟨en, htrig, by simp [jeqStr]⟩
  have htr : truthy (some (JValue.obj sfs)) = true := by
    cases sfs with
    | nil => exact absurd rfl hne
    | cons p ps => rfl
  refine ⟨?_, rfl⟩
  simp only [lambda_handler, hhead, routeRecord, s3Branch, dictGet, subscript, asStr,
    Except.bind, bind, Except.map, Functor.map, pure, Except.pure,
    hs3, hen, hobj, hkey, htr, hany, if_true]
  rw [package_id_eq_prefixBeforeFirstDot]

/-- C1 witness: a put event for key `abc123.tif` launches `ursa_major` with
`PACKAGE_ID` the part of the key before the first dot. -/
theorem s3_object_created_launches_ursa_major_witness :
    lambda_handler [] ⟨[storagePutRecord]⟩ =
      Except.ok (Outcome.launched (run_task [] (JValue.str ("ursa_major"))
        [⟨"PACKAGE_ID", some (JValue.str (prefixBeforeFirstDot ("abc123.tif")))⟩])) ∧
    (run_task [] (JValue.str ("ursa_major"))
        [⟨"PACKAGE_ID", some (JValue.str (prefixBeforeFirstDot ("abc123.tif")))⟩]).count = 1 :=
  s3_object_created_launches_ursa_major [] ⟨[storagePutRecord]⟩ _ _ _ _ _
    rfl rfl (List.cons_ne_nil _ _) rfl (by decide) rfl rfl

/-- C2: for every envelope whose first record is a TopicEvent whose
`requested_status` attribute value is `START`, the handler launches exactly
one task whose task definition is the `service` attribute value, with the
`PACKAGE_ID` environment entry equal to the `package_id` attribute value
(and `None` when that attribute is absent). -/
theorem sns_start_launches_service_task (config : Config) (event : Event)
    (fs snsfs attrs rsfs svcfs : List (String × JValue)) (sv : JValue) (pidv : Option JValue)
    (hhead : event.records.head? = some (JValue.obj fs))
    (hs3f : truthy (jlookup fs ("s3")) = false)
    (hsns : jlookup fs ("Sns") = some (JValue.obj snsfs))
    (hne : snsfs ≠ [])
    (hattrs : jlookup snsfs ("MessageAttributes") = some (JValue.obj attrs))
    (hpid : dictGet ((jlookup attrs ("package_id")).getD (JValue.obj [])) ("Value") =
      Except.ok pidv)
    (hrs : jlookup attrs ("requested_status") = some (JValue.obj rsfs))
    (hrsv : jlookup rsfs ("Value") = some (JValue.str START_STATUS))
    (hsvc : jlookup attrs ("service") = some (JValue.obj svcfs))
    (hsv : jlookup svcfs ("Value") = some sv) :
    lambda_handler config event =
      Except.ok (Outcome.launched (run_task config sv [⟨"PACKAGE_ID", pidv⟩])) ∧
    (run_task config sv [⟨"PACKAGE_ID", pidv⟩]).count = 1 ∧
    (jlookup attrs ("package_id") = none → pidv = none) := by
  have htr : truthy (some (JValue.obj snsfs)) = true := by
    cases snsfs with
    | nil => exact absurd rfl hne
    | cons p ps => rfl
  refine ⟨?_, rfl, ?_⟩
  · simp only [lambda_handler, hhead, routeRecord, snsBranch,
      Except.bind, bind, Except.map, Functor.map, pure, Except.pure,
      dictGet_obj, subscript_eq_ok _ _ _ hsns, subscript_eq_ok _ _ _ hattrs,
      subscript_eq_ok _ _ _ hsvc, subscript_eq_ok _ _ _ hsv,
      hs3f, hsns, hpid, hrs, hrsv, htr, Option.getD_some,
      isStart, START_STATUS, beq_self_eq_true,
      Bool.false_eq_true, if_false, if_true]
  · intro habs
    rw [habs] at hpid
    simp only [Option.getD_none, dictGet, jlookup] at hpid
    exact (Except.ok.injEq _ _ ▸ hpid).symm

/-- C2 witness: an SNS record with `requested_status = START`,
`service = fornax` and `package_id = xyz` launches `fornax` with
`PACKAGE_ID = xyz`. -/
theorem sns_start_launches_service_task_witness :
    lambda_handler [] ⟨[snsStartRecord]⟩ =
      Except.ok (Outcome.launched (run_task [] (JValue.str ("fornax"))
        [⟨"PACKAGE_ID", some (JValue.str ("xyz"))⟩])) ∧
    (run_task [] (JValue.str ("fornax"))
        [⟨"PACKAGE_ID", some (JValue.str ("xyz"))⟩]).count = 1 ∧
    (jlookup [("package_id", JValue.obj [("Type", JValue.str ("String")), ("Value", JValue.str ("xyz"))]),
       ("requested_status", JValue.obj [("Value", JValue.str ("START"))]),
       ("service", JValue.obj [("Value", JValue.str ("fornax"))])] ("package_id") = none →
      some (JValue.str ("xyz")) = none) :=
  sns_start_launches_service_task [] ⟨[snsStartRecord]⟩ _ _ _ _ _ _ _
    rfl rfl rfl (List.cons_ne_nil _ _) rfl rfl rfl rfl rfl rfl

/-- C3: for every configuration path, when the remote parameter-store call
raises, `get_config` swallows the failure (its result type is a plain
configuration, not an error) and returns the empty mapping. -/
theorem get_config_error_returns_empty (ssm_parameter_path msg : String) :
    get_config ssm_parameter_path (Except.error msg) = [] := rfl

/-- C4: for every envelope whose first record has neither a truthy `s3`
entry nor a truthy `Sns` entry, the handler raises (no launch, no returned
result). -/
theorem unrecognized_envelope_raises (config : Config) (event : Event)
    (fs : List (String × JValue))
    (hhead : event.records.head? = some (JValue.obj fs))
    (hs3f : truthy (jlookup fs ("s3")) = false)
    (hsnsf : truthy (jlookup fs ("Sns")) = false) :
    lambda_handler config event = Except.error PyError.unrecognizedEvent := by
  simp only [lambda_handler, hhead, routeRecord, dictGet,
    Except.bind, bind, hs3f, hsnsf, Bool.false_eq_true, if_false]

/-- C4 witness: an envelope whose only record is an empty dict raises. -/
theorem unrecognized_envelope_raises_witness :
    lambda_handler [] ⟨[JValue.obj []]⟩ = Except.error PyError.unrecognizedEvent :=
  unrecognized_envelope_raises [] ⟨[JValue.obj []]⟩ [] rfl rfl rfl

/-- C5: for every envelope whose first record is a StorageEvent with
`event_name` outside the trigger set, no launch occurs and the returned
result contains the literal phrase `Nothing to do for S3 event`. -/
theorem s3_non_trigger_no_launch (config : Config) (event : Event)
    (fs : List (String × JValue)) (en : String)
    (hhead : event.records.head? = some (JValue.obj fs))
    (hs3t : truthy (jlookup fs ("s3")) = true)
    (hen : jlookup fs ("eventName") = some (JValue.str en))
    (hnt : en ∉ triggerEventNames) :
    ∃ msg, lambda_handler config event = Except.ok (Outcome.noAction msg) ∧
      strContains msg ("Nothing to do for S3 event") = true := by
  have hany : triggerEventNames.any (fun n => jeqStr (JValue.str en) n) = false := by
    rw [List.any_eq_false]
    intro n hn
    simp only [jeqStr, Bool.eq_false_iff, ne_eq]
    exact fun he => hnt (by rw [eq_of_beq he]; exact hn)
  refine ⟨"Nothing to do for S3 event: " ++ pyReprEvent event, ?_, ?_⟩
  · simp only [lambda_handler, hhead, routeRecord, s3Branch, dictGet, subscript,
      Except.bind, bind, Except.map, Functor.map, pure, Except.pure,
      hs3t, hen, hany, Bool.false_eq_true, if_false, if_true]
  · exact strContains_of_isPrefixOf _ _ _ (by decide)

/-- C5 witness: an `ObjectRemoved:Delete` record yields a
`Nothing to do for S3 event` message. -/
theorem s3_non_trigger_no_launch_witness :
    ∃ msg, lambda_handler [] idleEventShort = Except.ok (Outcome.noAction msg) ∧
      strContains msg ("Nothing to do for S3 event") = true :=
  s3_non_trigger_no_launch [] idleEventShort _ _ rfl rfl rfl (by decide)

/-- C6: for every envelope whose first record is a TopicEvent whose
`requested_status` attribute is absent or not `START`, no launch occurs and
the returned result contains the literal phrase
`Nothing to do for SNS event`. -/
theorem sns_non_start_no_launch (config : Config) (event : Event)
    (fs snsfs attrs : List (String × JValue)) (pidv rsv : Option JValue)
    (hhead : event.records.head? = some (JValue.obj fs))
    (hs3f : truthy (jlookup fs ("s3")) = false)
    (hsns : jlookup fs ("Sns")  = some (JValue.obj snsfs))
    (hne : snsfs ≠ [])
    (hattrs : jlookup snsfs ("MessageAttributes") = some (JValue.obj attrs))
    (hpid : dictGet ((jlookup attrs ("package_id")).getD (JValue.obj [])) ("Value") =
      Except.ok pidv)
    (hrs : dictGet ((jlookup attrs ("requested_status")).getD (JValue.obj [])) ("Value") =
      Except.ok rsv)
    (hns : isStart rsv = false) :
    ∃ msg, lambda_handler config event = Except.ok (Outcome.noAction msg) ∧
      strContains msg ("Nothing to do for SNS event") = true := by
  have htr : truthy (some (JValue.obj snsfs)) = true := by
    cases snsfs with
    | nil => exact absurd rfl hne
    | cons p ps => rfl
  refine ⟨"Nothing to do for SNS event: " ++ pyReprEvent event, ?_, ?_⟩
  · simp only [lambda_handler, hhead, routeRecord, snsBranch,
      Except.bind, bind, Except.map, Functor.map, pure, Except.pure,
      dictGet_obj, subscript_eq_ok _ _ _ hsns, subscript_eq_ok _ _ _ hattrs,
      hs3f, hsns, hpid, hrs, hns, htr,
      Bool.false_eq_true, if_false, if_true]
  · exact strContains_of_isPrefixOf _ _ _ (by decide)

/-- C6 witness: an SNS record with empty `MessageAttributes` yields a
`Nothing to do for SNS event` message. -/
theorem sns_non_start_no_launch_witness :
    ∃ msg, lambda_handler [] ⟨[snsIdleRecord]⟩ = Except.ok (Outcome.noAction msg) ∧
      strContains msg ("Nothing to do for SNS event") = true :=
  sns_non_start_no_launch [] ⟨[snsIdleRecord]⟩ _ _ _ none none
    rfl rfl rfl (List.cons_ne_nil _ _) rfl rfl rfl rfl

/-- C7: for every configuration, task definition and environment, the launch
request built by `run_task` uses `config[ECS_CLUSTER]` as cluster,
`[config[ECS_SUBNET]]` as sole subnet, no security groups, public IP
disabled, launch type `FARGATE`, count 1, `started_by` the literal
`lambda/digital_ingest_trigger`, and exactly one container override named
like the task definition carrying the given environment. -/
theorem run_task_request_fields (config : Config) (task_definition : JValue)
    (environment : List EnvEntry) :
    (run_task config task_definition environment).cluster = cfgGet config ("ECS_CLUSTER") ∧
    (run_task config task_definition environment).subnets = [cfgGet config ("ECS_SUBNET")] ∧
    (run_task config task_definition environment).securityGroups = [] ∧
    (run_task config task_definition environment).assignPublicIp = "DISABLED" ∧
    (run_task config task_definition environment).launchType = "FARGATE" ∧
    (run_task config task_definition environment).count = 1 ∧
    (run_task config task_definition environment).startedBy = "lambda/digital_ingest_trigger" ∧
    (run_task config task_definition environment).containerOverrides =
      [⟨task_definition, environment⟩] :=
  ⟨rfl, rfl, rfl, rfl, rfl, rfl, rfl, rfl⟩

/-- C8: every key/value pair returned by a successful `get_config` fetch
comes from a fetched parameter, with the key the final path segment of that
parameter's name and the value that parameter's value; in particular a
store holding `{path}/foo = bar` and `{path}/baz = buzz` yields exactly
`{foo: bar, baz: buzz}`. -/
theorem get_config_keys_are_last_segments :
    (∀ (path : String) (params : List Param) (k v : String),
        (k, v) ∈ get_config path (Except.ok params) →
        ∃ p ∈ params, lastSegment p.name = k ∧ p.value = v) ∧
    get_config ("/dev/digital_ingest_trigger")
      (Except.ok [⟨"/dev/digital_ingest_trigger/foo", "bar"⟩,
                  ⟨"/dev/digital_ingest_trigger/baz", "buzz"⟩]) =
      [("foo", "bar"), ("baz", "buzz")] := by
  refine ⟨?_, by decide⟩
  intro path params k v h
  rcases mem_foldl_dinsert params [] k v h with habs | hex
  · exact absurd habs (List.not_mem_nil _)
  · exact hex

/-- C8 witness: in the two-parameter store, the returned pair
`(foo, bar)` indeed comes from the parameter named
`/dev/digital_ingest_trigger/foo`. -/
theorem get_config_keys_are_last_segments_witness :
    ∃ p ∈ [Param.mk ("/dev/digital_ingest_trigger/foo") ("bar"),
           Param.mk ("/dev/digital_ingest_trigger/baz") ("buzz")],
      lastSegment p.name = "foo" ∧ p.value = "bar" :=
  get_config_keys_are_last_segments.1 ("/dev/digital_ingest_trigger")
    ([Param.mk ("/dev/digital_ingest_trigger/foo") ("bar"),
      Param.mk ("/dev/digital_ingest_trigger/baz") ("buzz")])
    ("foo") ("bar") (by decide)

/-- C9 counterexample: two envelopes with the same first record but a
different tail give different handler results, because the
`Nothing to do` f-string interpolates the whole event. -/
theorem handler_result_depends_on_tail_records :
    idleEventShort.records.head? = idleEventLong.records.head? ∧
    lambda_handler [] idleEventShort ≠ lambda_handler [] idleEventLong :=
  ⟨rfl, fun h => absurd (congrArg msgOf h) (by decide)⟩

/-- C9 amended: for envelopes with identical first records the handler's
launch behavior is identical — the same error, the same single launch
request, or both no-action — though the text of a no-action message may
still differ with the tail records. -/
theorem launch_behavior_depends_only_on_first_record (config : Config) (e1 e2 : Event)
    (h : e1.records.head? = e2.records.head?) :
    launchView (lambda_handler config e1) = launchView (lambda_handler config e2) := by
  unfold lambda_handler
  rw [h]
  cases e2.records.head? with
  | none => rfl
  | some r =>
    cases hrr : routeRecord config r with
    | error e => simp [hrr, launchView]
    | ok v => cases v <;> simp [hrr, launchView]

/-- C9 amended witness: the two envelopes of the counterexample do have the
same launch view. -/
theorem launch_behavior_depends_only_on_first_record_witness :
    launchView (lambda_handler [] idleEventShort) =
      launchView (lambda_handler [] idleEventLong) :=
  launch_behavior_depends_only_on_first_record [] idleEventShort idleEventLong rfl

/-- C10: shape detection is by presence-and-truthiness with storage first:
a first record with truthy `s3` is routed to the S3 arm whatever its `Sns`
entry holds (concretely, a record carrying both a trigger put event and a
START topic message launches `ursa_major`, not the topic's service), and a
record whose `s3` entry is a falsy empty dict is not routed to the S3 arm
but to the `Sns` test. -/
theorem shape_detection_truthiness_and_precedence :
    (∀ (config : Config) (fs : List (String × JValue)),
        truthy (jlookup fs ("s3")) = true →
        routeRecord config (JValue.obj fs) = s3Branch config (JValue.obj fs)) ∧
    (routeRecord [] bothShapesRecord =
      Except.ok (RouteResult.launched (run_task [] (JValue.str ("ursa_major"))
        [⟨"PACKAGE_ID", some (JValue.str ("abc123"))⟩]))) ∧
    (∀ (config : Config) (fs : List (String × JValue)),
        jlookup fs ("s3") = some (JValue.obj []) →
        routeRecord config (JValue.obj fs) =
          if truthy (jlookup fs ("Sns")) = true then snsBranch config (JValue.obj fs)
          else Except.error PyError.unrecognizedEvent) := by
  refine ⟨?_, ?_, ?_⟩
  · intro config fs h
    simp only [routeRecord, dictGet_obj, Except.bind, bind, h, if_true]
  · rfl
  · intro config fs h
    simp only [routeRecord, dictGet_obj, Except.bind, bind, h, truthy,
      List.isEmpty, Bool.not_true, Bool.false_eq_true, if_false]

/-- C10 witness: a record with a truthy `s3` dict goes to the S3 arm, and a
record with an empty `s3` dict and a truthy `Sns` dict goes to the `Sns`
test. -/
theorem shape_detection_truthiness_and_precedence_witness :
    routeRecord [] (JValue.obj [("s3", JValue.obj [("a", JValue.null)])]) =
      s3Branch [] (JValue.obj [("s3", JValue.obj [("a", JValue.null)])]) ∧
    routeRecord [] (JValue.obj [("s3", JValue.obj []), ("Sns", JValue.obj [("a", JValue.null)])]) =
      (if truthy (jlookup [("s3", JValue.obj []), ("Sns", JValue.obj [("a", JValue.null)])] ("Sns")) = true
       then snsBranch [] (JValue.obj [("s3", JValue.obj []), ("Sns", JValue.obj [("a", JValue.null)])])
       else Except.error PyError.unrecognizedEvent) :=
  ⟨shape_detection_truthiness_and_precedence.1 [] _ rfl,
   shape_detection_truthiness_and_precedence.2.2 [] _ rfl⟩
